import Mathlib

/-!
# Class registry, dynamic class builder and instance binder of the objc bridge

A shallow embedding of `class.go`.  The Go package state (`classMap` and the
method tables it refers to), the memory of host structs that the binder
reads and writes, and the native runtime (the record of calls made through the cgo
shims, and the associated-object store) are one explicit `World` that every
operation threads.  A Go panic is an `Except.error`; the world that comes
with it is the world at the moment of the panic, since effects that happened
before a panic are not undone.
-/

namespace objc

/-! ## Basic data -/

/-- A native address (`uintptr`, `void *`); `0` is the nil pointer. -/
abbrev Ptr := Nat

/-- The handle type `object` (`object{ptr: ...}`): a wrapped native pointer. -/
structure object where
  ptr : Ptr
deriving DecidableEq, Repr

/-- The method `Pointer` of a handle. -/
def object.Pointer (obj : object) : Ptr := obj.ptr

/-- The ways a run of the code can abort. -/
inductive Panic
  /-- A `panic("...")` statement of class.go, with its message. -/
  | explicit (msg : String)
  /-- Go runtime: assignment to entry in nil map. -/
  | nilMapAssignment
  /-- The call of `reflect.Value.Type` on the zero Value. -/
  | reflectTypeOfZero
  /-- The call of `NumField` on a type that is not a struct type. -/
  | reflectNumField
  /-- The call of `Elem` on a value that is not a pointer. -/
  | reflectElem
  /-- The call of `FieldByName` on a value that is not a struct. -/
  | reflectFieldByName
  /-- The indirection through a nil pointer to an embedded struct, on the way
  to a promoted field. -/
  | reflectNilEmbedded
  /-- The call of `reflect.Value.Set` on the zero Value. -/
  | reflectSetOnZero
  /-- The call of `reflect.Value.Set` with a value the target cannot hold. -/
  | reflectSetNotAssignable
  /-- A panic raised by the signature encoder `funcTypeInfo`. -/
  | encoder (msg : String)
deriving DecidableEq, Repr

/-! ## Reflection -/

/-- The kinds `reflect.Kind` that class.go tells apart. -/
inductive Kind
  | Invalid
  | Struct
  | Ptr
  | Other
deriving DecidableEq, Repr

/-- A struct tag, as its key/value pairs in the order they are written. -/
structure StructTag where
  pairs : List (String × String)
deriving DecidableEq, Repr

/-- The value `tag.Get(key)`: the value of the first pair with the key, and
the empty string when there is none. -/
def StructTag.Get (tag : StructTag) (key : String) : String :=
  match tag.pairs.lookup key with
  | some v => v
  | none => ""

/-- The type of a struct field, as far as class.go asks about it. -/
structure FieldType where
  /-- The printed name of the type. -/
  name : String
  /-- The kind of the type. -/
  kind : Kind
  /-- The answer of `Implements(objectInterfaceType)`. -/
  implementsObject : Bool
  /-- Whether a handle (a value of type `object`) is assignable to the type. -/
  assignableFromObject : Bool
deriving DecidableEq, Repr

/-- The method `Implements`, at its one argument `objectInterfaceType`. -/
def FieldType.Implements (t : FieldType) : Bool := t.implementsObject

/-- One embedded field passed on the way to a promoted field: its name, whether
it is embedded as a pointer (`*T`) or by value (`T`), and for an embedding by
value the offset of the embedded struct in the struct that holds it. -/
structure EmbedStep where
  Name : String
  viaPointer : Bool
  offset : Nat
deriving DecidableEq, Repr

/-- A field that an embedded struct brings along: a field of the embedded
struct itself (`path` is empty) or of a struct embedded in it in turn (`path`
lists the embedded fields passed below, outermost first). -/
structure PromotedField where
  path : List EmbedStep
  Name : String
  Typ : FieldType
  Tag : StructTag
deriving DecidableEq, Repr

/-- What an embedded field of type `T` or `*T`, with `T` a struct type, brings:
how it is embedded, and all the fields of `T` and of the structs embedded in
`T` at any depth.  (A type that embeds itself through pointers is listed down
to the first repetition; the search of `FieldByName` never goes further.) -/
structure Embedding where
  viaPointer : Bool
  offset : Nat
  fields : List PromotedField
deriving DecidableEq, Repr

/-- A `reflect.StructField`.  `Embedded` is set for an embedded field of struct
type or of pointer-to-struct type, and is `none` for every other field. -/
structure StructField where
  Name : String
  Typ : FieldType
  Tag : StructTag
  Embedded : Option Embedding := none
deriving DecidableEq, Repr

/-- The promoted fields with a given name that one field of a struct brings,
each with the embedded fields passed to reach it, outermost first. -/
def StructField.candidates (f : StructField) (name : String) :
    List (List EmbedStep × StructField) :=
  match f.Embedded with
  | none => []
  | some em =>
    (em.fields.filter (fun pf => pf.Name == name)).map (fun pf =>
      (({ Name := f.Name, viaPointer := em.viaPointer, offset := em.offset } : EmbedStep)
        :: pf.path,
       ({ Name := pf.Name, Typ := pf.Typ, Tag := pf.Tag } : StructField)))

/-- The method `FieldByName` of a struct type, given by its fields: a direct
field with the name if there is one; otherwise the promoted field with the
name at the least depth, provided it is the only one at that depth (several
at the least depth annihilate each other, and nothing is found).  With the
field comes the list of embedded fields passed to reach it. -/
def fieldByName (fs : List StructField) (name : String) :
    Option (List EmbedStep × StructField) :=
  match fs.find? (fun f => f.Name == name) with
  | some f => some ([], f)
  | none =>
    let cands := fs.foldr (fun f acc => f.candidates name ++ acc) []
    match cands.filter (fun c => cands.all (fun c2 => c.1.length ≤ c2.1.length)) with
    | [c] => some c
    | _ => none

/-- The walk of `FieldByIndex` through the embedded fields of a path, from the
struct at `addr`: an embedding by value leads to the struct at its offset, an
embedded pointer to the struct it points to, read from memory; `none` when an
embedded pointer on the way is nil. -/
def resolvePath (pointers : Ptr → String → Ptr) (addr : Ptr) : List EmbedStep → Option Ptr
  | [] => some addr
  | s :: rest =>
    if s.viaPointer then
      if pointers addr s.Name = 0 then none
      else resolvePath pointers (pointers addr s.Name) rest
    else resolvePath pointers (addr + s.offset) rest

/-- A `reflect.Type`. -/
inductive RType
  | Struct (name : String) (fields : List StructField)
  | Ptr (elem : RType)
  | Other (name : String)
deriving DecidableEq, Repr

/-- The method `Kind` of a type. -/
def RType.Kind : RType → Kind
  | .Struct _ _ => .Struct
  | .Ptr _ => .Ptr
  | .Other _ => .Other

/-- The direct fields of a struct type (none for any other type). -/
def RType.fields : RType → List StructField
  | .Struct _ fs => fs
  | _ => []

/-- The method `NumField`: it panics for a type that is not a struct. -/
def RType.NumField : RType → Except Panic Nat
  | .Struct _ fs => .ok fs.length
  | _ => .error .reflectNumField

/-- A value of type `interface{}`: nil, or a datum with its dynamic type.
For a pointer type `data` is the address pointed to (`0` for a nil pointer);
for any other type it identifies the datum (for a function, its code). -/
inductive Interface
  | nil
  | val (typ : RType) (data : Ptr)
deriving DecidableEq, Repr

/-- The function `reflect.TypeOf`: nil for the nil interface. -/
def TypeOf : Interface → Option RType
  | .nil => none
  | .val t _ => some t

/-- A `reflect.Value`, restricted to the values class.go builds: the zero
Value, the value held in an interface, the variable a pointer points to, and
a field of such a variable. -/
inductive Value
  | zero
  | ofInterface (typ : RType) (data : Ptr)
  | pointee (typ : RType) (addr : Ptr)
  | structField (addr : Ptr) (f : StructField)
deriving DecidableEq, Repr

/-- The function `reflect.ValueOf`. -/
def ValueOf : Interface → Value
  | .nil => .zero
  | .val t d => .ofInterface t d

/-- The method `Kind` of a value; the zero Value has kind Invalid. -/
def Value.Kind : Value → Kind
  | .zero => .Invalid
  | .ofInterface t _ => t.Kind
  | .pointee t _ => t.Kind
  | .structField _ f => f.Typ.kind

/-- The method `IsValid`: false for the zero Value only. -/
def Value.IsValid : Value → Bool
  | .zero => false
  | _ => true

/-- The method `Type` of a value: it panics on the zero Value.  (The type of a
field value is not needed by class.go and is given by its printed name.) -/
def Value.Type : Value → Except Panic RType
  | .zero => .error .reflectTypeOfZero
  | .ofInterface t _ => .ok t
  | .pointee t _ => .ok t
  | .structField _ f => .ok (.Other f.Typ.name)

/-- The method `Elem` on a pointer held in an interface: the zero Value for a
nil pointer, the variable pointed to otherwise.  It panics on a value that is
not a pointer.  (A pointer that is itself read from memory does not occur in
class.go; the model holds no memory to read it from and reports the panic.) -/
def Value.Elem : Value → Except Panic Value
  | .ofInterface (.Ptr e) d => .ok (if d = 0 then .zero else .pointee e d)
  | _ => .error .reflectElem

/-- The method `Pointer` of a value of pointer kind: the address held. -/
def Value.Pointer : Value → Ptr
  | .ofInterface _ d => d
  | .pointee _ a => a
  | .structField a _ => a
  | .zero => 0

/-! ## The world -/

/-- The calls that reach the native runtime, in the order of the cgo shims of
class.go, and the message sends made through `SendMsg`. -/
inductive NativeCall
  | GetClass (name : String)
  | AllocateClassPair (superCls : Ptr) (name : String)
  | ClassAddMethod (subCls sel imp : Ptr) (typ : String)
  | SetInternal (obj ptr : Ptr)
  | GetInternal (obj : Ptr)
  | RegisterClass (cls : Ptr)
  | GetClassName (cls : Ptr)
  | GetObjectClass (obj : Ptr)
  | SendMsg (receiver : Ptr) (selector : String)
deriving DecidableEq, Repr

/-- The struct `classInfo`.  `methodMap` is a reference to a map object
(`none` is the nil map), as Go maps are. -/
structure classInfo where
  typ : Option RType
  methodMap : Option Nat
deriving DecidableEq, Repr

/-- The zero value of `classInfo`, which indexing `classMap` at an absent key
yields. -/
def classInfo.zero : classInfo := ⟨none, none⟩

/-- The state the code runs in. -/
structure World where
  /-- The package variable `classMap`. -/
  classMap : String → Option classInfo
  /-- The contents of the map objects made by `make`, by reference. -/
  maps : Nat → String → Option Interface
  /-- The next fresh map reference. -/
  nextMap : Nat
  /-- The calls made to the native runtime so far, oldest first. -/
  trace : List NativeCall
  /-- The associated-object store of the runtime under the key `&key`: the
  pointer associated with each object (nil when none was set). -/
  assoc : Ptr → Ptr
  /-- The handles stored in fields of host structs, by struct address and
  field name. -/
  fields : Ptr → String → Option object
  /-- The pointers stored in embedded pointer fields of host structs, by
  struct address and field name (`0` for a nil pointer). -/
  pointers : Ptr → String → Ptr

/-- The answer of the result of a message send to the assertion `o.(Object)`,
and the pointer of the handle. -/
structure MsgResult where
  ptr : Ptr
  isObject : Bool
deriving DecidableEq, Repr

/-- What class.go uses and does not define: the answers of the native runtime
(which may depend on the calls made before), and the parts of the package
that live in other files. -/
structure Env where
  /-- The runtime function `objc_getClass`. -/
  objc_getClass : List NativeCall → String → Ptr
  /-- The runtime function `objc_allocateClassPair`; `0` when it fails. -/
  objc_allocateClassPair : List NativeCall → Ptr → String → Ptr
  /-- The runtime function `class_getName`. -/
  class_getName : Ptr → String
  /-- The message send of the selector `class` to an object. -/
  objc_getObjectClass : List NativeCall → Ptr → Ptr
  /-- Modelled from the spec: the method `SendMsg` of a handle, which is not in
  class.go: it forwards to the message-send primitive of the native runtime
  and yields the result, which may or may not satisfy the Object capability. -/
  sendMsg : List NativeCall → Ptr → String → MsgResult
  /-- The function `selectorWithName` (selector interning). -/
  selectorWithName : String → Ptr
  /-- The function `methodCallTarget`: the one shared trampoline. -/
  methodCallTarget : Ptr
  /-- The signature encoder `funcTypeInfo`; it may reject a value. -/
  funcTypeInfo : Interface → Except Panic String
  /-- The encoding constants. -/
  encVoid : String
  encId : String
  encSelector : String

/-- A computation of the code: from a world, a result or a panic, and the
world it leaves. -/
def Go (α : Type) : Type := World → Except Panic α × World

/-- Sequencing: a panic ends the computation and keeps the world reached. -/
def Go.bind {α β : Type} (m : Go α) (f : α → Go β) : Go β := fun w =>
  match m w with
  | (.ok a, w1) => f a w1
  | (.error p, w1) => (.error p, w1)

instance : Monad Go where
  pure a := fun w => (.ok a, w)
  bind := Go.bind

/-- The statement `panic(...)`, and any runtime panic. -/
def raise {α : Type} (p : Panic) : Go α := fun w => (.error p, w)

/-- A library call that may panic and touches no state. -/
def try_ {α : Type} : Except Panic α → Go α
  | .ok a => pure a
  | .error p => raise p

/-- Record a call to the native runtime. -/
def record (c : NativeCall) : Go Unit := fun w =>
  (.ok (), { w with trace := w.trace ++ [c] })

/-- A function updated at one argument. -/
def update {α β : Type} [DecidableEq α] (f : α → β) (a : α) (b : β) : α → β :=
  fun x => if x = a then b else f x

/-! ## The cgo shims -/

def GoObjc_GetClass (env : Env) (name : String) : Go Ptr := fun w =>
  (.ok (env.objc_getClass w.trace name), { w with trace := w.trace ++ [.GetClass name] })

def GoObjc_AllocateClassPair (env : Env) (superCls : Ptr) (name : String) : Go Ptr := fun w =>
  (.ok (env.objc_allocateClassPair w.trace superCls name),
   { w with trace := w.trace ++ [.AllocateClassPair superCls name] })

def GoObjc_ClassAddMethod (subCls sel imp : Ptr) (typ : String) : Go Unit :=
  record (.ClassAddMethod subCls sel imp typ)

def GoObjc_SetInternal (obj ptr : Ptr) : Go Unit := fun w =>
  (.ok (), { w with assoc := update w.assoc obj ptr, trace := w.trace ++ [.SetInternal obj ptr] })

def GoObjc_GetInternal (obj : Ptr) : Go Ptr := fun w =>
  (.ok (w.assoc obj), { w with trace := w.trace ++ [.GetInternal obj] })

def GoObjc_RegisterClass (cls : Ptr) : Go Unit :=
  record (.RegisterClass cls)

def GoObjc_GetClassName (env : Env) (cls : Ptr) : Go String := fun w =>
  (.ok (env.class_getName cls), { w with trace := w.trace ++ [.GetClassName cls] })

def GoObjc_GetObjectClass (env : Env) (obj : Ptr) : Go Ptr := fun w =>
  (.ok (env.objc_getObjectClass w.trace obj), { w with trace := w.trace ++ [.GetObjectClass obj] })

/-- Modelled from the spec: the method `SendMsg`, which is not in class.go
(see `Env.sendMsg`).  The send is recorded; it does not re-enter the bridge. -/
def SendMsg (env : Env) (receiver : Ptr) (selector : String) : Go MsgResult := fun w =>
  (.ok (env.sendMsg w.trace receiver selector),
   { w with trace := w.trace ++ [.SendMsg receiver selector] })

/-! ## The Go statements on maps and struct fields -/

/-- The expression `make(map[string]interface{})`: a fresh, empty map. -/
def makeMap : Go Nat := fun w =>
  (.ok w.nextMap,
   { w with maps := update w.maps w.nextMap (fun _ => none), nextMap := w.nextMap + 1 })

/-- The expression `classMap[name]`: the entry, or the zero value. -/
def indexClassMap (name : String) : Go classInfo := fun w =>
  (.ok ((w.classMap name).getD classInfo.zero), w)

/-- The statement `classMap[name] = ci`. -/
def assignClassMap (name : String) (ci : classInfo) : Go Unit := fun w =>
  (.ok (), { w with classMap := update w.classMap name (some ci) })

/-- The statement `m[key] = v` on a map reference: a panic on the nil map. -/
def assignMap (m : Option Nat) (key : String) (v : Interface) : Go Unit :=
  match m with
  | none => raise .nilMapAssignment
  | some r => fun w =>
    (.ok (), { w with maps := update w.maps r (update (w.maps r) key (some v)) })

/-- The method `FieldByName` on a struct variable: the field that the struct
type finds for the name, direct or promoted through embedded structs, located
by walking the embedded fields on the way; the zero Value when the type finds
none.  It panics when an embedded pointer on the way is nil, and on a value
that is not a struct. -/
def Value.FieldByName (v : Value) (name : String) : Go Value :=
  match v with
  | .pointee (.Struct _ fs) addr =>
    match fieldByName fs name with
    | none => pure .zero
    | some (path, f) => fun w =>
      match resolvePath w.pointers addr path with
      | none => (.error .reflectNilEmbedded, w)
      | some a => (.ok (.structField a f), w)
  | _ => raise .reflectFieldByName

/-- The method `Set` of a value, with a handle as the value to store.  The
zero Value panics; a field takes the handle when its type can hold it.  (No
other receiver occurs in class.go.) -/
def Value.Set (v : Value) (x : object) : Go Unit :=
  match v with
  | .zero => raise .reflectSetOnZero
  | .structField addr f =>
    if f.Typ.assignableFromObject then
      fun w => (.ok (), { w with fields := update w.fields addr (update (w.fields addr) f.Name (some x)) })
    else raise .reflectSetNotAssignable
  | _ => raise .reflectSetNotAssignable

/-! ## class.go -/

/-- The method `MethodForSelector`: `ci.methodMap[sel]`, which is nil when the
selector is absent (and on the nil map). -/
def classInfo.MethodForSelector (ci : classInfo) (sel : String) (w : World) : Interface :=
  match ci.methodMap with
  | none => .nil
  | some r =>
    match w.maps r sel with
    | some fn => fn
    | none => .nil

/-- The world after package initialisation: `init` has made `classMap` an
empty map, and nothing has been called yet. -/
def init : World where
  classMap := fun _ => none
  maps := fun _ _ => none
  nextMap := 0
  trace := []
  assoc := fun _ => 0
  fields := fun _ _ => none
  pointers := fun _ _ => 0

/-- The loop of `NewClass` over the fields, from the first on: it stops at the
first field tagged as an outlet, with `true` when the type of that field
implements Object and with a panic when it does not. -/
def NewClass.hasIBOutlets : List StructField → Except Panic Bool
  | [] => .ok false
  | field :: rest =>
    if field.Tag.Get "objc" = "IBOutlet" then
      if field.Typ.Implements then .ok true
      else .error (.explicit "IBOutlets must implement objc.Object")
    else NewClass.hasIBOutlets rest

def NewClass (env : Env) (superClass : object) (name : String) (value : Interface) :
    Go object := do
  let ptr ← GoObjc_AllocateClassPair env superClass.Pointer name
  if ptr = 0 then
    raise (.explicit "unable to AllocateClassPair")
  -- Check whether the class has any IBOutlets
  let typ ← try_ (ValueOf value).Type
  let _ ← try_ typ.NumField
  let hasIBOutlets ← try_ (NewClass.hasIBOutlets typ.fields)
  -- Register the setValue:forKey: method if the class has any IBOutlets
  if hasIBOutlets then
    let sel := env.selectorWithName "setValue:forKey:"
    let typeInfo := env.encVoid ++ env.encId ++ env.encSelector ++ env.encId ++ env.encId
    GoObjc_ClassAddMethod ptr sel env.methodCallTarget typeInfo
  let m ← makeMap
  assignClassMap name { typ := TypeOf value, methodMap := some m }
  return { ptr := ptr }

def GetClass (env : Env) (name : String) : Go object := do
  let p ← GoObjc_GetClass env name
  return { ptr := p }

def getObjectClass (env : Env) (obj : object) : Go object := do
  let classPtr ← GoObjc_GetObjectClass env obj.Pointer
  return { ptr := classPtr }

def RegisterClass (cls : object) : Go Unit :=
  GoObjc_RegisterClass cls.Pointer

def className (env : Env) (cls : object) : Go String :=
  GoObjc_GetClassName env cls.Pointer

def AddMethod (env : Env) (cls : object) (selector : String) (fn : Interface) : Go Unit := do
  let sel := env.selectorWithName selector
  let typeInfo ← try_ (env.funcTypeInfo fn)
  GoObjc_ClassAddMethod cls.Pointer sel env.methodCallTarget typeInfo
  -- Add the method to the method map of the class
  let clsName ← className env cls
  let clsInfo ← indexClassMap clsName
  assignMap clsInfo.methodMap selector fn

def setInternalPointer (obj : object) (value : Ptr) : Go Unit :=
  GoObjc_SetInternal obj.Pointer value

def internalPointer (obj : object) : Go Ptr :=
  GoObjc_GetInternal obj.Pointer

/-- The expression `GetClass(className).SendMsg("alloc").SendMsg("init")`. -/
def allocInit (env : Env) (className : String) : Go MsgResult := do
  let cls ← GetClass env className
  let a ← SendMsg env cls.Pointer "alloc"
  SendMsg env a.ptr "init"

def NewGoInstance (env : Env) (className : String) (value : Interface) : Go Unit := do
  let val := ValueOf value
  if val.Kind ≠ Kind.Ptr then
    raise (.explicit "NewGoInstance: value must be a pointer")
  -- Extract the Object field of the embedded objc.Object, if there is one
  let ptrval ← try_ (ValueOf value).Elem
  let mut objval := Value.zero
  if ptrval.Kind = Kind.Struct then
    objval ← ptrval.FieldByName "Object"
    if !val.IsValid then
      return
  -- Set the Object field to a new instance of the class
  let o ← allocInit env className
  if !o.isObject then
    raise (.explicit "NewGoInstance: value does not implement Object")
  let obj : object := { ptr := o.ptr }
  objval.Set obj
  -- Point the internal pointer of the instance to the struct
  setInternalPointer { ptr := obj.Pointer } val.Pointer

/-! ## Runs of the package -/

/-- A call of one of the operations of the package. -/
inductive Op
  | NewClass (superClass : object) (name : String) (value : Interface)
  | NewGoInstance (className : String) (value : Interface)
  | GetClass (name : String)
  | getObjectClass (obj : object)
  | RegisterClass (cls : object)
  | className (cls : object)
  | AddMethod (cls : object) (selector : String) (fn : Interface)
  | setInternalPointer (obj : object) (value : Ptr)
  | internalPointer (obj : object)
  | SendMsg (receiver : object) (selector : String)
deriving DecidableEq, Repr

/-- The world a call leaves, whether it returned or panicked. -/
def Op.exec (env : Env) : Op → World → World
  | .NewClass s n v, w => (objc.NewClass env s n v w).2
  | .NewGoInstance n v, w => (objc.NewGoInstance env n v w).2
  | .GetClass n, w => (objc.GetClass env n w).2
  | .getObjectClass o, w => (objc.getObjectClass env o w).2
  | .RegisterClass c, w => (objc.RegisterClass c w).2
  | .className c, w => (objc.className env c w).2
  | .AddMethod c s f, w => (objc.AddMethod env c s f w).2
  | .setInternalPointer o v, w => (objc.setInternalPointer o v w).2
  | .internalPointer o, w => (objc.internalPointer o w).2
  | .SendMsg r s, w => (objc.SendMsg env r.Pointer s w).2

/-- The world after a sequence of calls. -/
def execAll (env : Env) (ops : List Op) (w : World) : World :=
  ops.foldl (fun w op => op.exec env w) w

/-- The worlds the package can be in: those reached from `init` by calls. -/
def Reachable (env : Env) (w : World) : Prop :=
  ∃ ops, execAll env ops init = w

/-- The method found for a selector of a named class: the lookup
`classMap[name].MethodForSelector(sel)`. -/
def lookupMethod (w : World) (name sel : String) : Interface :=
  ((w.classMap name).getD classInfo.zero).MethodForSelector sel w


/-- The invariant of the registry: every entry of `classMap` refers to a map
object that has been made, and no two entries refer to the same one. -/
def RegistryInv (w : World) : Prop :=
  ∀ n ci, w.classMap n = some ci →
    ∃ r, ci.methodMap = some r ∧ r < w.nextMap ∧
      ∀ n2 ci2, w.classMap n2 = some ci2 → ci2.methodMap = some r → n2 = n

/-- Whether a native call installs a method on a class. -/
def NativeCall.isClassAddMethod : NativeCall → Bool
  | .ClassAddMethod _ _ _ _ => true
  | _ => false

/-- The method installations made on the way from world `w` to world `w2`. -/
def methodsInstalled (w w2 : World) : List NativeCall :=
  (w2.trace.drop w.trace.length).filter NativeCall.isClassAddMethod

/-- Whether the struct type of a value has a field tagged as an outlet. -/
def hasOutletField (value : Interface) : Bool :=
  match TypeOf value with
  | some t => t.fields.any (fun f => f.Tag.Get "objc" == "IBOutlet")
  | none => false

/-! ## Concrete data the statements are tried on -/

/-- A runtime in which allocation yields address 100 and up, the class at 100
is named Widget, alloc yields a new object and init returns its receiver. -/
def exampleEnv : Env where
  objc_getClass := fun _ _ => 7
  objc_allocateClassPair := fun t _ _ => 100 + t.length
  class_getName := fun p => if p = 100 then "Widget" else "NSObject"
  objc_getObjectClass := fun _ _ => 7
  sendMsg := fun _ r s => if s = "alloc" then ⟨r + 1, true⟩ else ⟨r, true⟩
  selectorWithName := fun s => s.length
  methodCallTarget := 4242
  funcTypeInfo := fun v =>
    match v with
    | .nil => .error (.encoder "not a function")
    | .val _ _ => .ok "v@:"
  encVoid := "v"
  encId := "@"
  encSelector := ":"

/-- The runtime of `exampleEnv`, except that allocation fails. -/
def failingEnv : Env := { exampleEnv with objc_allocateClassPair := fun _ _ _ => 0 }

/-- The embedded field `objc.Object`. -/
def objectField : StructField :=
  { Name := "Object", Typ := ⟨"objc.Object", .Other, true, true⟩, Tag := ⟨[]⟩ }

/-- An outlet field whose type implements Object. -/
def goodOutlet : StructField :=
  { Name := "View", Typ := ⟨"objc.Object", .Other, true, true⟩,
    Tag := ⟨[("objc", "IBOutlet")]⟩ }

/-- An outlet field of type int, which does not implement Object. -/
def badOutlet : StructField :=
  { Name := "Count", Typ := ⟨"int", .Other, false, false⟩,
    Tag := ⟨[("objc", "IBOutlet")]⟩ }

/-- A struct with no outlet. -/
def plainStruct : RType := .Struct "Plain" [objectField]

/-- A struct with one valid outlet. -/
def outletStruct : RType := .Struct "Outlet" [objectField, goodOutlet]

/-- A struct whose invalid outlet stands after a valid one. -/
def mixedStruct : RType := .Struct "Mixed" [objectField, goodOutlet, badOutlet]

/-- A struct whose invalid outlet stands first. -/
def invalidStruct : RType := .Struct "Invalid" [objectField, badOutlet, goodOutlet]

/-- A struct with no field named Object. -/
def bareStruct : RType := .Struct "Bare" []

/-- The field `Object` as an embedded struct `Inner` with the single field
`Object objc.Object` brings it. -/
def innerObject : PromotedField :=
  { path := [], Name := "Object", Typ := ⟨"objc.Object", .Other, true, true⟩, Tag := ⟨[]⟩ }

/-- The struct `Outer` that embeds `Inner` by value: its field Object is
promoted, not direct. -/
def outerStruct : RType :=
  .Struct "Outer"
    [{ Name := "Inner", Typ := ⟨"Inner", .Struct, true, false⟩, Tag := ⟨[]⟩,
       Embedded := some { viaPointer := false, offset := 0, fields := [innerObject] } }]

/-- The struct that embeds `*Inner`: its field Object is promoted through a
pointer. -/
def pointerOuterStruct : RType :=
  .Struct "PointerOuter"
    [{ Name := "Inner", Typ := ⟨"*Inner", .Ptr, true, false⟩, Tag := ⟨[]⟩,
       Embedded := some { viaPointer := true, offset := 0, fields := [innerObject] } }]

/-- The struct that embeds both `Left` and `Right`, each with a field Object:
the two promoted fields stand at the same depth. -/
def ambiguousStruct : RType :=
  .Struct "Ambiguous"
    [{ Name := "Left", Typ := ⟨"Left", .Struct, true, false⟩, Tag := ⟨[]⟩,
       Embedded := some { viaPointer := false, offset := 0, fields := [innerObject] } },
     { Name := "Right", Typ := ⟨"Right", .Struct, true, false⟩, Tag := ⟨[]⟩,
       Embedded := some { viaPointer := false, offset := 16, fields := [innerObject] } }]

/-- The field `Object` of a struct `Deep` that `Right` embeds in turn. -/
def deepObject : PromotedField :=
  { path := [{ Name := "Deep", viaPointer := false, offset := 0 }], Name := "Object",
    Typ := ⟨"objc.Object", .Other, true, true⟩, Tag := ⟨[]⟩ }

/-- The struct that embeds `Left`, with a field Object, and `Right`, which has
it one level further down: the field of `Left` is the less deep one. -/
def shadowStruct : RType :=
  .Struct "Shadow"
    [{ Name := "Right", Typ := ⟨"Right", .Struct, true, false⟩, Tag := ⟨[]⟩,
       Embedded := some { viaPointer := false, offset := 0, fields := [deepObject] } },
     { Name := "Left", Typ := ⟨"Left", .Struct, true, false⟩, Tag := ⟨[]⟩,
       Embedded := some { viaPointer := false, offset := 16, fields := [innerObject] } }]

/-- The world `w` in which the embedded pointer `Inner` of the struct at
address 50 points to address 70. -/
def withInnerAt70 (w : World) : World :=
  { w with pointers := fun a n => if a = 50 ∧ n = "Inner" then 70 else w.pointers a n }

/-- Two host functions. -/
def hostFn1 : Interface := .val (.Other "func(objc.Object)") 9001

def hostFn2 : Interface := .val (.Other "func(objc.Object)") 9002

/-- The calls that define Widget and add a method to it. -/
def widgetOps : List Op :=
  [.NewClass ⟨1⟩ "Widget" (.val plainStruct 0), .AddMethod ⟨100⟩ "doThing:" hostFn1]

/-- The world after `widgetOps`. -/
def widgetWorld : World := execAll exampleEnv widgetOps init

/-! ## How the operations run -/

@[simp]
theorem Go.pure_apply {α : Type} (a : α) (w : World) :
    (pure a : Go α) w = (.ok a, w) := rfl

@[simp]
theorem Go.bind_apply {α β : Type} (m : Go α) (f : α → Go β) (w : World) :
    (m >>= f) w = (match m w with
      | (.ok a, w1) => f a w1
      | (.error p, w1) => (.error p, w1)) := rfl

@[simp]
theorem raise_apply {α : Type} (p : Panic) (w : World) :
    (raise p : Go α) w = (.error p, w) := rfl

theorem NewClass_alloc_fails (env : Env) (superClass : object) (name : String)
    (value : Interface) (w : World)
    (hp : env.objc_allocateClassPair w.trace superClass.ptr name = 0) :
    NewClass env superClass name value w =
      (.error (.explicit "unable to AllocateClassPair"),
       { w with trace := w.trace ++ [.AllocateClassPair superClass.ptr name] }) := by
  simp [NewClass, GoObjc_AllocateClassPair, hp, object.Pointer]

theorem NewClass_nil (env : Env) (superClass : object) (name : String) (w : World)
    (hp : env.objc_allocateClassPair w.trace superClass.ptr name ≠ 0) :
    NewClass env superClass name .nil w =
      (.error .reflectTypeOfZero,
       { w with trace := w.trace ++ [.AllocateClassPair superClass.ptr name] }) := by
  simp [NewClass, GoObjc_AllocateClassPair, hp, object.Pointer, try_, ValueOf, Value.Type]

theorem NewClass_not_struct (env : Env) (superClass : object) (name : String)
    (t : RType) (d : Ptr) (w : World)
    (hp : env.objc_allocateClassPair w.trace superClass.ptr name ≠ 0)
    (ht : t.Kind ≠ Kind.Struct) :
    NewClass env superClass name (.val t d) w =
      (.error .reflectNumField,
       { w with trace := w.trace ++ [.AllocateClassPair superClass.ptr name] }) := by
  cases t with
  | Struct n fs => exact absurd rfl ht
  | Ptr e =>
    simp [NewClass, GoObjc_AllocateClassPair, hp, object.Pointer, try_, ValueOf, Value.Type,
      RType.NumField]
  | Other n =>
    simp [NewClass, GoObjc_AllocateClassPair, hp, object.Pointer, try_, ValueOf, Value.Type,
      RType.NumField]

theorem NewClass_bad_outlet (env : Env) (superClass : object) (name sname : String)
    (fs : List StructField) (d : Ptr) (w : World) (p : Panic)
    (hp : env.objc_allocateClassPair w.trace superClass.ptr name ≠ 0)
    (hb : NewClass.hasIBOutlets fs = .error p) :
    NewClass env superClass name (.val (.Struct sname fs) d) w =
      (.error p, { w with trace := w.trace ++ [.AllocateClassPair superClass.ptr name] }) := by
  simp [NewClass, GoObjc_AllocateClassPair, hp, object.Pointer, try_, ValueOf, Value.Type,
    RType.NumField, RType.fields, hb]

theorem NewClass_struct (env : Env) (superClass : object) (name sname : String)
    (fs : List StructField) (d : Ptr) (w : World) (b : Bool)
    (hp : env.objc_allocateClassPair w.trace superClass.ptr name ≠ 0)
    (hb : NewClass.hasIBOutlets fs = .ok b) :
    NewClass env superClass name (.val (.Struct sname fs) d) w =
      (.ok ⟨env.objc_allocateClassPair w.trace superClass.ptr name⟩,
       { classMap := update w.classMap name
           (some ⟨some (.Struct sname fs), some w.nextMap⟩),
         maps := update w.maps w.nextMap (fun _ => none),
         nextMap := w.nextMap + 1,
         trace := w.trace ++ .AllocateClassPair superClass.ptr name ::
           (if b then
             [.ClassAddMethod (env.objc_allocateClassPair w.trace superClass.ptr name)
               (env.selectorWithName "setValue:forKey:") env.methodCallTarget
               (env.encVoid ++ env.encId ++ env.encSelector ++ env.encId ++ env.encId)]
            else []),
         assoc := w.assoc,
         fields := w.fields,
         pointers := w.pointers }) := by
  cases b <;>
  simp [NewClass, GoObjc_AllocateClassPair, hp, object.Pointer, try_, ValueOf, Value.Type,
    RType.NumField, RType.fields, hb, makeMap, assignClassMap, TypeOf, GoObjc_ClassAddMethod,
    record]

theorem hasIBOutlets_ok_iff_any (fs : List StructField) (b : Bool)
    (h : NewClass.hasIBOutlets fs = .ok b) :
    b = fs.any (fun f => f.Tag.Get "objc" == "IBOutlet") := by
  induction fs with
  | nil => simp [NewClass.hasIBOutlets] at h; simp [h]
  | cons f rest ih =>
    unfold NewClass.hasIBOutlets at h
    by_cases ht : f.Tag.Get "objc" = "IBOutlet"
    · by_cases hi : f.Typ.Implements = true
      · simp [ht, hi] at h
        simp [ht, ← h]
      · simp [ht, hi] at h
    · simp only [ht, if_false] at h
      simp [ht, ih h]

theorem AddMethod_encoder_fails (env : Env) (cls : object) (selector : String)
    (fn : Interface) (w : World) (p : Panic) (he : env.funcTypeInfo fn = .error p) :
    AddMethod env cls selector fn w = (.error p, w) := by
  simp [AddMethod, try_, he]

theorem AddMethod_nil_map (env : Env) (cls : object) (selector : String)
    (fn : Interface) (w : World) (typeInfo : String)
    (he : env.funcTypeInfo fn = .ok typeInfo)
    (hm : ((w.classMap (env.class_getName cls.ptr)).getD classInfo.zero).methodMap = none) :
    AddMethod env cls selector fn w =
      (.error .nilMapAssignment,
       { w with trace := w.trace ++
           [.ClassAddMethod cls.ptr (env.selectorWithName selector) env.methodCallTarget typeInfo,
            .GetClassName cls.ptr] }) := by
  simp [AddMethod, try_, he, GoObjc_ClassAddMethod, record, className, GoObjc_GetClassName,
    indexClassMap, object.Pointer, hm, assignMap]

theorem AddMethod_some_map (env : Env) (cls : object) (selector : String)
    (fn : Interface) (w : World) (typeInfo : String) (r : Nat)
    (he : env.funcTypeInfo fn = .ok typeInfo)
    (hm : ((w.classMap (env.class_getName cls.ptr)).getD classInfo.zero).methodMap = some r) :
    AddMethod env cls selector fn w =
      (.ok (),
       { w with
         maps := update w.maps r (update (w.maps r) selector (some fn)),
         trace := w.trace ++
           [.ClassAddMethod cls.ptr (env.selectorWithName selector) env.methodCallTarget typeInfo,
            .GetClassName cls.ptr] }) := by
  simp [AddMethod, try_, he, GoObjc_ClassAddMethod, record, className, GoObjc_GetClassName,
    indexClassMap, object.Pointer, hm, assignMap]

theorem allocInit_eq (env : Env) (className : String) (w : World) :
    allocInit env className w =
      (.ok (env.sendMsg
          (w.trace ++ [.GetClass className,
            .SendMsg (env.objc_getClass w.trace className) "alloc"])
          (env.sendMsg (w.trace ++ [.GetClass className])
            (env.objc_getClass w.trace className) "alloc").ptr "init"),
       { w with trace := w.trace ++
           [.GetClass className,
            .SendMsg (env.objc_getClass w.trace className) "alloc",
            .SendMsg (env.sendMsg (w.trace ++ [.GetClass className])
              (env.objc_getClass w.trace className) "alloc").ptr "init"] }) := by
  simp [allocInit, GetClass, GoObjc_GetClass, SendMsg, object.Pointer]

theorem NewGoInstance_not_ptr (env : Env) (className : String) (value : Interface) (w : World)
    (h : (ValueOf value).Kind ≠ Kind.Ptr) :
    NewGoInstance env className value w =
      (.error (.explicit "NewGoInstance: value must be a pointer"), w) := by
  simp [NewGoInstance, h]

/-- Every run of `NewGoInstance` on a pointer to a value of type `e` at address
`d`, by the field that `FieldByName` finds and the answer `o` of the
alloc/init sends. -/
theorem NewGoInstance_ptr (env : Env) (className : String) (e : RType) (d : Ptr) (w : World)
    (o : MsgResult) (w1 : World) (ha : allocInit env className w = (.ok o, w1)) :
    NewGoInstance env className (.val (.Ptr e) d) w =
      match (if d = 0 then none else fieldByName e.fields "Object") with
      | none =>
        if o.isObject then (.error .reflectSetOnZero, w1)
        else (.error (.explicit "NewGoInstance: value does not implement Object"), w1)
      | some (path, f) =>
        match resolvePath w.pointers d path with
        | none => (.error .reflectNilEmbedded, w)
        | some a =>
          if o.isObject then
            (if f.Typ.assignableFromObject then
              (.ok (), { w1 with
                fields := update w1.fields a (update (w1.fields a) f.Name (some ⟨o.ptr⟩)),
                assoc := update w1.assoc o.ptr d,
                trace := w1.trace ++ [.SetInternal o.ptr d] })
            else (.error .reflectSetNotAssignable, w1))
          else (.error (.explicit "NewGoInstance: value does not implement Object"), w1) := by
  by_cases hd : d = 0
  · cases ho : o.isObject <;>
    simp [NewGoInstance, ValueOf, Value.Kind, RType.Kind, Value.Elem, try_, hd, ha, ho,
      Value.Set]
  · cases e with
    | Struct n fs =>
      cases hf : fieldByName fs "Object" with
      | none =>
        cases ho : o.isObject <;>
        simp [NewGoInstance, ValueOf, Value.Kind, RType.Kind, Value.Elem, try_, hd, ha, ho,
          Value.Set, Value.FieldByName, hf, Value.IsValid, RType.fields]
      | some pf =>
        obtain ⟨path, f⟩ := pf
        cases hr : resolvePath w.pointers d path with
        | none =>
          simp [NewGoInstance, ValueOf, Value.Kind, RType.Kind, Value.Elem, try_, hd,
            Value.FieldByName, hf, hr, Value.IsValid, RType.fields]
        | some a =>
          cases ho : o.isObject <;> cases hs : f.Typ.assignableFromObject <;>
          simp [NewGoInstance, ValueOf, Value.Kind, RType.Kind, Value.Elem, try_, hd, ha, ho,
            Value.Set, Value.FieldByName, hf, hr, Value.IsValid, RType.fields, hs,
            setInternalPointer, GoObjc_SetInternal, object.Pointer, Value.Pointer]
    | Ptr e2 =>
      cases ho : o.isObject <;>
      simp [NewGoInstance, ValueOf, Value.Kind, RType.Kind, Value.Elem, try_, hd, ha, ho,
        Value.Set, RType.fields, fieldByName]
    | Other n =>
      cases ho : o.isObject <;>
      simp [NewGoInstance, ValueOf, Value.Kind, RType.Kind, Value.Elem, try_, hd, ha, ho,
        Value.Set, RType.fields, fieldByName]

/-- A direct field with the name is what `fieldByName` finds, with no embedded
field to pass. -/
theorem fieldByName_direct (fs : List StructField) (name : String) (f : StructField)
    (h : fs.find? (fun f => f.Name == name) = some f) :
    fieldByName fs name = some ([], f) := by
  simp [fieldByName, h]

/-- Every run of `NewClass` either panics, having done nothing but the
allocation call, or registers a struct type. -/
theorem NewClass_cases (env : Env) (superClass : object) (name : String)
    (value : Interface) (w : World) :
    (∃ p, NewClass env superClass name value w =
      (.error p, { w with trace := w.trace ++ [.AllocateClassPair superClass.ptr name] })) ∨
    (∃ sname fs d b, value = .val (.Struct sname fs) d ∧
      NewClass.hasIBOutlets fs = .ok b ∧
      env.objc_allocateClassPair w.trace superClass.ptr name ≠ 0 ∧
      NewClass env superClass name value w =
      (.ok ⟨env.objc_allocateClassPair w.trace superClass.ptr name⟩,
       { classMap := update w.classMap name
           (some ⟨some (.Struct sname fs), some w.nextMap⟩),
         maps := update w.maps w.nextMap (fun _ => none),
         nextMap := w.nextMap + 1,
         trace := w.trace ++ .AllocateClassPair superClass.ptr name ::
           (if b then
             [.ClassAddMethod (env.objc_allocateClassPair w.trace superClass.ptr name)
               (env.selectorWithName "setValue:forKey:") env.methodCallTarget
               (env.encVoid ++ env.encId ++ env.encSelector ++ env.encId ++ env.encId)]
            else []),
         assoc := w.assoc,
         fields := w.fields,
         pointers := w.pointers })) := by
  by_cases hp : env.objc_allocateClassPair w.trace superClass.ptr name = 0
  · exact Or.inl ⟨_, NewClass_alloc_fails env superClass name value w hp⟩
  · cases value with
    | nil => exact Or.inl ⟨_, NewClass_nil env superClass name w hp⟩
    | val t d =>
      cases t with
      | Struct sname fs =>
        cases hb : NewClass.hasIBOutlets fs with
        | error p => exact Or.inl ⟨_, NewClass_bad_outlet env superClass name sname fs d w p hp hb⟩
        | ok b =>
          exact Or.inr ⟨sname, fs, d, b, rfl, hb, hp,
            NewClass_struct env superClass name sname fs d w b hp hb⟩
      | Ptr e =>
        exact Or.inl ⟨_, NewClass_not_struct env superClass name (.Ptr e) d w hp (by simp [RType.Kind])⟩
      | Other n =>
        exact Or.inl ⟨_, NewClass_not_struct env superClass name (.Other n) d w hp (by simp [RType.Kind])⟩

/-- Every run of `AddMethod` leaves `classMap` and the map counter alone. -/
theorem AddMethod_frame (env : Env) (cls : object) (selector : String) (fn : Interface)
    (w : World) :
    (AddMethod env cls selector fn w).2.classMap = w.classMap ∧
    (AddMethod env cls selector fn w).2.nextMap = w.nextMap := by
  cases he : env.funcTypeInfo fn with
  | error p => simp [AddMethod_encoder_fails env cls selector fn w p he]
  | ok t =>
    cases hm : ((w.classMap (env.class_getName cls.ptr)).getD classInfo.zero).methodMap with
    | none => simp [AddMethod_nil_map env cls selector fn w t he hm]
    | some r => simp [AddMethod_some_map env cls selector fn w t r he hm]

/-- Every run of `NewGoInstance` leaves the registry alone. -/
theorem NewGoInstance_frame (env : Env) (className : String) (value : Interface) (w : World) :
    (NewGoInstance env className value w).2.classMap = w.classMap ∧
    (NewGoInstance env className value w).2.nextMap = w.nextMap ∧
    (NewGoInstance env className value w).2.maps = w.maps := by
  by_cases hk : (ValueOf value).Kind = Kind.Ptr
  · cases value with
    | nil => simp [ValueOf, Value.Kind] at hk
    | val t d =>
      cases t with
      | Ptr e =>
        rw [NewGoInstance_ptr env className e d w _ _ (allocInit_eq env className w)]
        split
        · split_ifs <;> simp
        · split
          · simp
          · split_ifs <;> simp
      | Struct n fs => simp [ValueOf, Value.Kind, RType.Kind] at hk
      | Other n => simp [ValueOf, Value.Kind, RType.Kind] at hk
  · simp [NewGoInstance_not_ptr env className value w hk]

theorem exec_preserves_inv (env : Env) (op : Op) (w : World) (h : RegistryInv w) :
    RegistryInv (op.exec env w) := by
  cases op with
  | NewClass s n v =>
    simp only [Op.exec]
    rcases NewClass_cases env s n v w with ⟨p, hp⟩ | ⟨sname, fs, d, b, _, _, _, hok⟩
    · rw [hp]; exact h
    · rw [hok]
      intro m ci hm
      simp only [update] at hm
      by_cases hmn : m = n
      · simp only [hmn, if_true, Option.some.injEq] at hm
        subst hm
        refine ⟨w.nextMap, rfl, Nat.lt_succ_self _, ?_⟩
        intro n2 ci2 h2 hr
        simp only [update] at h2
        by_cases h2n : n2 = n
        · rw [h2n, hmn]
        · simp only [h2n, if_false] at h2
          obtain ⟨r, hr2, hlt, _⟩ := h n2 ci2 h2
          rw [hr2] at hr
          simp only [Option.some.injEq] at hr
          omega
      · simp only [hmn, if_false] at hm
        obtain ⟨r, hr, hlt, huniq⟩ := h m ci hm
        refine ⟨r, hr, Nat.lt_succ_of_lt hlt, ?_⟩
        intro n2 ci2 h2 hr2
        simp only [update] at h2
        by_cases h2n : n2 = n
        · simp only [h2n, if_true, Option.some.injEq] at h2
          subst h2
          simp only [Option.some.injEq] at hr2
          omega
        · simp only [h2n, if_false] at h2
          exact huniq n2 ci2 h2 hr2
  | NewGoInstance n v =>
    obtain ⟨h1, h2, _⟩ := NewGoInstance_frame env n v w
    simp only [Op.exec, RegistryInv, h1, h2]
    exact h
  | AddMethod c s f =>
    obtain ⟨h1, h2⟩ := AddMethod_frame env c s f w
    simp only [Op.exec, RegistryInv, h1, h2]
    exact h
  | GetClass n => exact h
  | getObjectClass o => exact h
  | RegisterClass c => exact h
  | className c => exact h
  | setInternalPointer o v => exact h
  | internalPointer o => exact h
  | SendMsg r s => exact h

theorem init_inv : RegistryInv init := by
  intro n ci h
  simp [init] at h

theorem execAll_preserves_inv (env : Env) (ops : List Op) (w : World) (h : RegistryInv w) :
    RegistryInv (execAll env ops w) := by
  induction ops generalizing w with
  | nil => exact h
  | cons op rest ih => exact ih _ (exec_preserves_inv env op w h)

theorem Reachable.inv {env : Env} {w : World} (h : Reachable env w) : RegistryInv w := by
  obtain ⟨ops, rfl⟩ := h
  exact execAll_preserves_inv env ops init init_inv

/-! ## Promoted fields -/

/-- The two fields Object at the same depth annihilate each other. -/
theorem fieldByName_ambiguous : fieldByName ambiguousStruct.fields "Object" = none := by
  decide

/-- The less deep field Object is found, whatever the order of the fields. -/
theorem fieldByName_shallowest :
    fieldByName shadowStruct.fields "Object" =
      some ([{ Name := "Left", viaPointer := false, offset := 16 }],
        { Name := "Object", Typ := ⟨"objc.Object", .Other, true, true⟩, Tag := ⟨[]⟩ }) := by
  decide

/-- A pointer to a struct whose field Object is promoted from a struct embedded
by value: the instance is bound as it is for a direct field. -/
theorem NewGoInstance_binds_promoted :
    (NewGoInstance exampleEnv "Widget" (.val (.Ptr outerStruct) 50) widgetWorld).1 = .ok () ∧
    (NewGoInstance exampleEnv "Widget" (.val (.Ptr outerStruct) 50) widgetWorld).2.assoc 8
      = 50 ∧
    (NewGoInstance exampleEnv "Widget" (.val (.Ptr outerStruct) 50) widgetWorld).2.fields 50
      "Object" = some ⟨8⟩ :=
  ⟨rfl, rfl, rfl⟩

/-- A pointer to a struct whose field Object is promoted through an embedded
pointer that is nil: `FieldByName` panics, before any message is sent. -/
theorem NewGoInstance_nil_embedded :
    NewGoInstance exampleEnv "Widget" (.val (.Ptr pointerOuterStruct) 50) widgetWorld =
      (.error .reflectNilEmbedded, widgetWorld) :=
  rfl

/-- The same struct with the embedded pointer set: the field Object of the
struct pointed to takes the handle. -/
theorem NewGoInstance_binds_through_pointer :
    (NewGoInstance exampleEnv "Widget" (.val (.Ptr pointerOuterStruct) 50)
      (withInnerAt70 widgetWorld)).1 = .ok () ∧
    (NewGoInstance exampleEnv "Widget" (.val (.Ptr pointerOuterStruct) 50)
      (withInnerAt70 widgetWorld)).2.assoc 8 = 50 ∧
    (NewGoInstance exampleEnv "Widget" (.val (.Ptr pointerOuterStruct) 50)
      (withInnerAt70 widgetWorld)).2.fields 70 "Object" = some ⟨8⟩ :=
  ⟨rfl, rfl, rfl⟩

/-! ## The claims -/

/-- C1 (the code at the failing input).  The struct `mixedStruct` has the outlet
field `Count` of a type that does not implement Object, standing after the
valid outlet `View`.  With a successful allocation `NewClass` does not panic:
it returns the class and registers the entry for the name. -/
theorem NewClass_misses_outlet_after_valid :
    badOutlet ∈ mixedStruct.fields ∧
    badOutlet.Tag.Get "objc" = "IBOutlet" ∧ badOutlet.Typ.Implements = false ∧
    (NewClass exampleEnv ⟨1⟩ "Widget" (.val mixedStruct 0) init).1 = .ok ⟨100⟩ ∧
    (NewClass exampleEnv ⟨1⟩ "Widget" (.val mixedStruct 0) init).2.classMap "Widget" =
      some ⟨some mixedStruct, some 0⟩ := by
  refine ⟨by decide, by decide, rfl, rfl, rfl⟩

/-- C6 (the code at the failing input).  With a value that is a pointer to a
struct without outlets, and a successful allocation, `NewClass` panics in
`NumField` and registers nothing. -/
theorem NewClass_panics_on_pointer :
    (NewClass exampleEnv ⟨1⟩ "Widget" (.val (.Ptr plainStruct) 50) init).1 =
      .error .reflectNumField ∧
    (NewClass exampleEnv ⟨1⟩ "Widget" (.val (.Ptr plainStruct) 50) init).2.classMap "Widget" =
      none := by
  refine ⟨rfl, rfl⟩

/-- C9.  For every value whose kind is not pointer (the nil interface included),
`NewGoInstance` panics with "NewGoInstance: value must be a pointer" and leaves
the world exactly as it was: no message has been sent to the native class and
no association has been installed. -/
theorem NewGoInstance_requires_pointer (env : Env) (className : String) (value : Interface)
    (w : World) (h : (ValueOf value).Kind ≠ Kind.Ptr) :
    NewGoInstance env className value w =
      (.error (.explicit "NewGoInstance: value must be a pointer"), w) :=
  NewGoInstance_not_ptr env className value w h

/-- The statement of C9 at a struct value passed where a pointer is due. -/
theorem NewGoInstance_requires_pointer_witness :
    (ValueOf (.val plainStruct 0)).Kind ≠ Kind.Ptr ∧
    NewGoInstance exampleEnv "Widget" (.val plainStruct 0) widgetWorld =
      (.error (.explicit "NewGoInstance: value must be a pointer"), widgetWorld) :=
  ⟨by decide,
   NewGoInstance_requires_pointer exampleEnv "Widget" (.val plainStruct 0) widgetWorld
     (by decide)⟩

/-- C8.  `NewClass` is all-or-nothing on the class registry.  When the native
allocation returns nil, `NewClass` panics with "unable to AllocateClassPair"
having made no other native call than the allocation (no method installed) and
changed nothing else.  In every run of `NewClass` that panics, whatever the
cause, `classMap` and the method tables are what they were before the call. -/
theorem NewClass_all_or_nothing (env : Env) (superClass : object) (name : String)
    (value : Interface) (w : World) :
    (env.objc_allocateClassPair w.trace superClass.ptr name = 0 →
      NewClass env superClass name value w =
        (.error (.explicit "unable to AllocateClassPair"),
         { w with trace := w.trace ++ [.AllocateClassPair superClass.ptr name] })) ∧
    (∀ p w', NewClass env superClass name value w = (.error p, w') →
      w'.classMap = w.classMap ∧ w'.maps = w.maps ∧ w'.nextMap = w.nextMap) := by
  refine ⟨NewClass_alloc_fails env superClass name value w, ?_⟩
  intro p w' h
  rcases NewClass_cases env superClass name value w with ⟨q, hq⟩ | ⟨_, _, _, _, _, _, _, hok⟩
  · rw [hq] at h
    simp only [Prod.mk.injEq] at h
    rw [← h.2]
    exact ⟨rfl, rfl, rfl⟩
  · rw [hok] at h
    simp at h

/-- The statement of C8 at a failing allocation, and at a struct whose first
outlet is invalid. -/
theorem NewClass_all_or_nothing_witness :
    NewClass failingEnv ⟨1⟩ "Widget" (.val outletStruct 0) widgetWorld =
      (.error (.explicit "unable to AllocateClassPair"),
       { widgetWorld with
         trace := widgetWorld.trace ++ [.AllocateClassPair 1 "Widget"] }) ∧
    (NewClass exampleEnv ⟨1⟩ "Widget" (.val invalidStruct 0) widgetWorld).2.classMap =
      widgetWorld.classMap :=
  ⟨(NewClass_all_or_nothing failingEnv ⟨1⟩ "Widget" (.val outletStruct 0) widgetWorld).1 rfl,
   ((NewClass_all_or_nothing exampleEnv ⟨1⟩ "Widget" (.val invalidStruct 0) widgetWorld).2
      (.explicit "IBOutlets must implement objc.Object")
      (NewClass exampleEnv ⟨1⟩ "Widget" (.val invalidStruct 0) widgetWorld).2 rfl).1⟩

/-- C7.  For every call of `NewClass` that completes, the native calls it made
are the allocation followed by exactly one method installation when the host
struct has a field tagged as an outlet, and by none otherwise; the installed
method is for the selector "setValue:forKey:", with the shared trampoline and
the type encoding encVoid ++ encId ++ encSelector ++ encId ++ encId, on the
class returned. -/
theorem NewClass_installs_outlet_setter (env : Env) (superClass : object) (name : String)
    (value : Interface) (w : World) (cls : object) (w' : World)
    (h : NewClass env superClass name value w = (.ok cls, w')) :
    w'.trace = w.trace ++ .AllocateClassPair superClass.ptr name :: methodsInstalled w w' ∧
    (methodsInstalled w w').length = (if hasOutletField value then 1 else 0) ∧
    methodsInstalled w w' =
      (if hasOutletField value then
        [.ClassAddMethod cls.ptr (env.selectorWithName "setValue:forKey:")
          env.methodCallTarget
          (env.encVoid ++ env.encId ++ env.encSelector ++ env.encId ++ env.encId)]
       else []) := by
  rcases NewClass_cases env superClass name value w with ⟨q, hq⟩ | ⟨sn, fs, d, b, hv, hb, _, hok⟩
  · rw [hq] at h
    simp at h
  · rw [hok] at h
    simp only [Prod.mk.injEq, Except.ok.injEq] at h
    obtain ⟨hcls, hw⟩ := h
    have hany := hasIBOutlets_ok_iff_any fs b hb
    have hof : hasOutletField value = b := by
      rw [hv, hany]
      simp [hasOutletField, TypeOf, RType.fields]
    rw [hof, ← hw, ← hcls]
    cases b <;>
      simp [methodsInstalled, NativeCall.isClassAddMethod]

/-- The statement of C7 at a struct with one valid outlet. -/
theorem NewClass_installs_outlet_setter_witness :
    NewClass exampleEnv ⟨1⟩ "Gadget" (.val outletStruct 0) widgetWorld =
      (.ok ⟨103⟩, (NewClass exampleEnv ⟨1⟩ "Gadget" (.val outletStruct 0) widgetWorld).2) ∧
    methodsInstalled widgetWorld
        (NewClass exampleEnv ⟨1⟩ "Gadget" (.val outletStruct 0) widgetWorld).2 =
      [.ClassAddMethod 103 16 4242 "v@:@@"] :=
  ⟨rfl,
   (NewClass_installs_outlet_setter exampleEnv ⟨1⟩ "Gadget" (.val outletStruct 0) widgetWorld
      ⟨103⟩ _ rfl).2.2⟩

/-- C5.  `AddMethod` only works for classes created with `NewClass`: for every
class handle whose native class name has no entry in the class registry,
`AddMethod` aborts, records the function nowhere and leaves the registry as it
was, with no entry made for the name.  When the signature encoder accepts the
function, the abort is the write into the nil method table of the zero-valued
classInfo; when it rejects the function, the abort is that of the encoder. -/
theorem AddMethod_unregistered_class (env : Env) (cls : object) (selector : String)
    (fn : Interface) (w : World)
    (h : w.classMap (env.class_getName cls.ptr) = none) :
    ∃ p w', AddMethod env cls selector fn w = (.error p, w') ∧
      w'.classMap = w.classMap ∧ w'.maps = w.maps ∧ w'.nextMap = w.nextMap ∧
      w'.classMap (env.class_getName cls.ptr) = none ∧
      (∀ typeInfo, env.funcTypeInfo fn = .ok typeInfo → p = .nilMapAssignment) ∧
      (∀ q, env.funcTypeInfo fn = .error q → p = q) := by
  cases he : env.funcTypeInfo fn with
  | error q =>
    refine ⟨q, w, AddMethod_encoder_fails env cls selector fn w q he, rfl, rfl, rfl, h, ?_, ?_⟩
    · intro t ht; cases ht
    · intro q2 hq; cases hq; rfl
  | ok t =>
    have hm : ((w.classMap (env.class_getName cls.ptr)).getD classInfo.zero).methodMap = none := by
      rw [h]; rfl
    refine ⟨.nilMapAssignment, _, AddMethod_nil_map env cls selector fn w t he hm,
      rfl, rfl, rfl, h, ?_, ?_⟩
    · intro _ _; rfl
    · intro q hq; cases hq

/-- The statement of C5 at a handle of the class NSObject, which has no entry. -/
theorem AddMethod_unregistered_class_witness :
    widgetWorld.classMap (exampleEnv.class_getName 7) = none ∧
    ∃ p w', AddMethod exampleEnv ⟨7⟩ "doThing:" hostFn1 widgetWorld = (.error p, w') ∧
      w'.classMap = widgetWorld.classMap ∧ w'.maps = widgetWorld.maps ∧
      w'.nextMap = widgetWorld.nextMap ∧
      w'.classMap (exampleEnv.class_getName 7) = none ∧
      (∀ typeInfo, exampleEnv.funcTypeInfo hostFn1 = .ok typeInfo → p = .nilMapAssignment) ∧
      (∀ q, exampleEnv.funcTypeInfo hostFn1 = .error q → p = q) :=
  ⟨rfl, AddMethod_unregistered_class exampleEnv ⟨7⟩ "doThing:" hostFn1 widgetWorld rfl⟩

/-- C2.  In every reachable world in which a class name has an entry (made by
`NewClass`), for every selector and every host function that the signature
encoder accepts, `AddMethod` on a handle of that class completes; afterwards
`MethodForSelector` on the entry of the class returns exactly the function
(which replaces whatever the selector had before), the lookups of every other
selector of the class and of every selector of every other class return what
they returned before, and `classMap` itself is unchanged. -/
theorem AddMethod_records_method (env : Env) (w : World) (cls : object)
    (name selector : String) (fn : Interface) (ci : classInfo) (typeInfo : String)
    (hr : Reachable env w) (hdef : w.classMap name = some ci)
    (hname : env.class_getName cls.ptr = name)
    (henc : env.funcTypeInfo fn = .ok typeInfo) :
    ∃ w', AddMethod env cls selector fn w = (.ok (), w') ∧
      w'.classMap = w.classMap ∧
      ci.MethodForSelector selector w' = fn ∧
      lookupMethod w' name selector = fn ∧
      (∀ sel, sel ≠ selector → lookupMethod w' name sel = lookupMethod w name sel) ∧
      (∀ other sel, other ≠ name → lookupMethod w' other sel = lookupMethod w other sel) := by
  obtain ⟨r, hr1, _, huniq⟩ := hr.inv name ci hdef
  have hm : ((w.classMap (env.class_getName cls.ptr)).getD classInfo.zero).methodMap = some r := by
    rw [hname, hdef]; exact hr1
  refine ⟨_, AddMethod_some_map env cls selector fn w typeInfo r henc hm, rfl, ?_, ?_, ?_, ?_⟩
  · cases hfn : fn <;> simp [classInfo.MethodForSelector, hr1, update]
  · cases hfn : fn <;> simp [lookupMethod, hdef, classInfo.MethodForSelector, hr1, update]
  · intro sel hsel
    simp [lookupMethod, hdef, classInfo.MethodForSelector, hr1, update, hsel]
  · intro other sel hother
    cases ho : w.classMap other with
    | none => simp [lookupMethod, ho, classInfo.zero, classInfo.MethodForSelector]
    | some ci2 =>
      cases hm2 : ci2.methodMap with
      | none => simp [lookupMethod, ho, classInfo.MethodForSelector, hm2]
      | some r2 =>
        have hne : r2 ≠ r := by
          intro heq
          exact hother (huniq other ci2 ho (by rw [hm2, heq]))
        simp [lookupMethod, ho, classInfo.MethodForSelector, hm2, update, hne]

/-- The statement of C2 at the class Widget, replacing the method of a selector
that is already present. -/
theorem AddMethod_records_method_witness :
    Reachable exampleEnv widgetWorld ∧
    widgetWorld.classMap "Widget" = some ⟨some plainStruct, some 0⟩ ∧
    lookupMethod widgetWorld "Widget" "doThing:" = hostFn1 ∧
    ∃ w', AddMethod exampleEnv ⟨100⟩ "doThing:" hostFn2 widgetWorld = (.ok (), w') ∧
      w'.classMap = widgetWorld.classMap ∧
      (⟨some plainStruct, some 0⟩ : classInfo).MethodForSelector "doThing:" w' = hostFn2 ∧
      lookupMethod w' "Widget" "doThing:" = hostFn2 ∧
      (∀ sel, sel ≠ "doThing:" →
        lookupMethod w' "Widget" sel = lookupMethod widgetWorld "Widget" sel) ∧
      (∀ other sel, other ≠ "Widget" →
        lookupMethod w' other sel = lookupMethod widgetWorld other sel) :=
  ⟨⟨widgetOps, rfl⟩, rfl, rfl,
   AddMethod_records_method exampleEnv widgetWorld ⟨100⟩ "Widget" "doThing:" hostFn2
     ⟨some plainStruct, some 0⟩ "v@:" ⟨widgetOps, rfl⟩ rfl rfl rfl⟩

/-- C3.  Last define wins.  In every reachable world, a call of `NewClass` that
completes for a name (in particular one that is already defined, with or
without methods added) overwrites the registry entry of the name: the entry
consulted afterwards has the type of the value of this call as its host type
and an empty method table (`MethodForSelector` returns nil for every selector,
those added to an earlier definition included), and the entries of all other
names and the methods found through them are unchanged. -/
theorem NewClass_last_define_wins (env : Env) (superClass : object) (name : String)
    (value : Interface) (w : World) (cls : object) (w' : World)
    (hr : Reachable env w)
    (h : NewClass env superClass name value w = (.ok cls, w')) :
    (∃ ci, w'.classMap name = some ci ∧ ci.typ = TypeOf value ∧
      ∀ sel, ci.MethodForSelector sel w' = .nil) ∧
    (∀ sel, lookupMethod w' name sel = .nil) ∧
    (∀ other, other ≠ name → w'.classMap other = w.classMap other ∧
      ∀ sel, lookupMethod w' other sel = lookupMethod w other sel) := by
  rcases NewClass_cases env superClass name value w with ⟨q, hq⟩ | ⟨sn, fs, d, b, hv, _, _, hok⟩
  · rw [hq] at h
    simp at h
  · rw [hok] at h
    simp only [Prod.mk.injEq, Except.ok.injEq] at h
    obtain ⟨_, hw⟩ := h
    subst hw
    refine ⟨⟨⟨some (.Struct sn fs), some w.nextMap⟩, by simp [update], by simp [hv, TypeOf],
      ?_⟩, ?_, ?_⟩
    · intro sel
      simp [classInfo.MethodForSelector, update]
    · intro sel
      simp [lookupMethod, classInfo.MethodForSelector, update]
    · intro other hother
      refine ⟨by simp [update, hother], ?_⟩
      intro sel
      cases ho : w.classMap other with
      | none => simp [lookupMethod, update, hother, ho, classInfo.zero, classInfo.MethodForSelector]
      | some ci2 =>
        obtain ⟨r, hr1, hlt, _⟩ := hr.inv other ci2 ho
        have hne : r ≠ w.nextMap := by omega
        simp [lookupMethod, update, hother, ho, classInfo.MethodForSelector, hr1, hne]

/-- The statement of C3 at a second definition of Widget, which had a method. -/
theorem NewClass_last_define_wins_witness :
    Reachable exampleEnv widgetWorld ∧
    lookupMethod widgetWorld "Widget" "doThing:" = hostFn1 ∧
    (NewClass exampleEnv ⟨1⟩ "Widget" (.val outletStruct 0) widgetWorld).1 = .ok ⟨103⟩ ∧
    (∃ ci, (NewClass exampleEnv ⟨1⟩ "Widget" (.val outletStruct 0) widgetWorld).2.classMap
        "Widget" = some ci ∧ ci.typ = some outletStruct ∧
      ∀ sel, ci.MethodForSelector sel
        (NewClass exampleEnv ⟨1⟩ "Widget" (.val outletStruct 0) widgetWorld).2 = .nil) :=
  ⟨⟨widgetOps, rfl⟩, rfl, rfl,
   (NewClass_last_define_wins exampleEnv ⟨1⟩ "Widget" (.val outletStruct 0) widgetWorld
      ⟨103⟩ _ ⟨widgetOps, rfl⟩ rfl).1⟩

/-- C4.  For every call `NewGoInstance(className, p)` where `p` is a non-nil
pointer to a struct with the embedded field `Object` (a field that can hold a
handle), and the alloc/init sends answer with an Object `o`: the call
completes; immediately afterwards `internalPointer` on the instance
`o` returns exactly the address `p` that the caller supplied, and the field
`Object` of the struct at `p` holds the handle of that same instance. -/
theorem NewGoInstance_binds_instance (env : Env) (className sname : String)
    (fs : List StructField) (f : StructField) (d : Ptr) (w : World)
    (o : MsgResult) (w1 : World)
    (hd : d ≠ 0)
    (hf : fs.find? (fun f => f.Name == "Object") = some f)
    (hassign : f.Typ.assignableFromObject = true)
    (ha : allocInit env className w = (.ok o, w1))
    (ho : o.isObject = true) :
    ∃ w', NewGoInstance env className (.val (.Ptr (.Struct sname fs)) d) w = (.ok (), w') ∧
      (internalPointer ⟨o.ptr⟩ w').1 = .ok d ∧
      w'.assoc o.ptr = d ∧
      w'.fields d "Object" = some ⟨o.ptr⟩ := by
  have hname : f.Name = "Object" := by
    have := List.find?_some hf
    simpa using this
  rw [NewGoInstance_ptr env className (.Struct sname fs) d w o w1 ha]
  simp [ho, hd, RType.fields, fieldByName_direct fs "Object" f hf, resolvePath, hassign,
    internalPointer, GoObjc_GetInternal, object.Pointer, update, hname]

/-- The statement of C4 at a pointer to a struct that embeds Object. -/
theorem NewGoInstance_binds_instance_witness :
    allocInit exampleEnv "Widget" widgetWorld =
      (.ok ⟨8, true⟩, (allocInit exampleEnv "Widget" widgetWorld).2) ∧
    ∃ w', NewGoInstance exampleEnv "Widget" (.val (.Ptr plainStruct) 50) widgetWorld =
        (.ok (), w') ∧
      (internalPointer ⟨8⟩ w').1 = .ok 50 ∧
      w'.assoc 8 = 50 ∧
      w'.fields 50 "Object" = some ⟨8⟩ :=
  ⟨rfl,
   NewGoInstance_binds_instance exampleEnv "Widget" "Plain" [objectField] objectField 50
     widgetWorld ⟨8, true⟩ _ (by decide) rfl rfl rfl rfl⟩

/-- C10.  `NewGoInstance` never returns without binding.  Let `o` be the answer
of the alloc/init sends and `w1` the world after them (the world before, with
the class lookup and the two sends recorded, and nothing else changed).
Every normal return has installed the association of `o` as its last step, so
the early return guarded by `!val.IsValid()` is never taken.  For a pointer to
a type that has no field named Object, that is one in which `FieldByName`
finds none, neither among the direct fields nor promoted through embedded
structs (a type that is not a struct has no fields at all), the call does not
return: it panics in world `w1`, that is after alloc and init were sent and
with no association installed; the panic is that of `Set` on the zero Value,
unless the answer `o` fails the assertion to Object, which panics just
before. -/
theorem NewGoInstance_never_returns_unbound (env : Env) (className : String)
    (value : Interface) (w : World) (o : MsgResult) (w1 : World)
    (ha : allocInit env className w = (.ok o, w1)) :
    (∃ c a, w1 = { w with trace := w.trace ++
        [.GetClass className, .SendMsg c "alloc", .SendMsg a "init"] }) ∧
    (∀ w', NewGoInstance env className value w = (.ok (), w') →
      w'.trace = w1.trace ++ [.SetInternal o.ptr (ValueOf value).Pointer] ∧
      w'.assoc o.ptr = (ValueOf value).Pointer) ∧
    (∀ e d, value = .val (.Ptr e) d → fieldByName e.fields "Object" = none →
      NewGoInstance env className value w =
        (.error (if o.isObject then .reflectSetOnZero
          else .explicit "NewGoInstance: value does not implement Object"), w1)) := by
  refine ⟨?_, ?_, ?_⟩
  · rw [allocInit_eq] at ha
    simp only [Prod.mk.injEq, Except.ok.injEq] at ha
    exact ⟨_, _, ha.2.symm⟩
  · intro w' h
    by_cases hk : (ValueOf value).Kind = Kind.Ptr
    · cases value with
      | nil => simp [ValueOf, Value.Kind] at hk
      | val t d =>
        cases t with
        | Ptr e =>
          rw [NewGoInstance_ptr env className e d w o w1 ha] at h
          by_cases hd : d = 0
          · by_cases ho : o.isObject = true <;> simp [ho, hd] at h
          · cases hf : fieldByName e.fields "Object" with
            | none => by_cases ho : o.isObject = true <;> simp [ho, hd, hf] at h
            | some pf =>
              obtain ⟨path, f⟩ := pf
              cases hr : resolvePath w.pointers d path with
              | none => simp [hd, hf, hr] at h
              | some a =>
                by_cases ho : o.isObject = true
                · by_cases hs : f.Typ.assignableFromObject = true
                  · simp [ho, hd, hf, hr, hs] at h
                    rw [← h]
                    simp [ValueOf, Value.Pointer, update]
                  · simp [ho, hd, hf, hr, hs] at h
                · simp [ho, hd, hf, hr] at h
        | Struct n fs => simp [ValueOf, Value.Kind, RType.Kind] at hk
        | Other n => simp [ValueOf, Value.Kind, RType.Kind] at hk
    · rw [NewGoInstance_not_ptr env className value w hk] at h
      simp at h
  · intro e d hv hf
    rw [hv, NewGoInstance_ptr env className e d w o w1 ha]
    by_cases ho : o.isObject = true <;> by_cases hd : d = 0 <;> simp [ho, hd, hf]

/-- The statement of C10 at a pointer to a struct without the field Object, at
a pointer to an int, and at a pointer to a struct whose two promoted fields
Object annihilate each other. -/
theorem NewGoInstance_never_returns_unbound_witness :
    allocInit exampleEnv "Widget" widgetWorld =
      (.ok ⟨8, true⟩, (allocInit exampleEnv "Widget" widgetWorld).2) ∧
    NewGoInstance exampleEnv "Widget" (.val (.Ptr bareStruct) 50) widgetWorld =
      (.error .reflectSetOnZero, (allocInit exampleEnv "Widget" widgetWorld).2) ∧
    NewGoInstance exampleEnv "Widget" (.val (.Ptr (.Other "int")) 50) widgetWorld =
      (.error .reflectSetOnZero, (allocInit exampleEnv "Widget" widgetWorld).2) ∧
    NewGoInstance exampleEnv "Widget" (.val (.Ptr ambiguousStruct) 50) widgetWorld =
      (.error .reflectSetOnZero, (allocInit exampleEnv "Widget" widgetWorld).2) :=
  ⟨rfl,
   (NewGoInstance_never_returns_unbound exampleEnv "Widget" (.val (.Ptr bareStruct) 50)
      widgetWorld ⟨8, true⟩ _ rfl).2.2 bareStruct 50 rfl rfl,
   (NewGoInstance_never_returns_unbound exampleEnv "Widget" (.val (.Ptr (.Other "int")) 50)
      widgetWorld ⟨8, true⟩ _ rfl).2.2 (.Other "int") 50 rfl rfl,
   (NewGoInstance_never_returns_unbound exampleEnv "Widget" (.val (.Ptr ambiguousStruct) 50)
      widgetWorld ⟨8, true⟩ _ rfl).2.2 ambiguousStruct 50 rfl rfl⟩

end objc
